import Mathlib

/-!
Verification of the `ipv4-info-retriever` library (`src/ip_info.py`).

The library performs one HTTP GET against a geolocation API, parses the
JSON body into a mapping, classifies error payloads (those containing a
`"status"` key), and wraps successful payloads behind read-only accessor
properties (`all`, `hostname`, `ip`, `city`, `region`, `country`,
`location`, `organization`, `postal`, `time`, `timezone`, `bogon`) plus a
debug representation.

The network call and `json.loads` are external; the embedding starts from
the already-parsed mapping.  Python dictionaries become association lists
of string keys and JSON values; exceptions become an `Except` layer; the
`pytz` timezone database is a parameter `knownTz : String → Bool`
(`pytz.timezone z` succeeds exactly when `z` is a recognized identifier);
the system clock read by `datetime.now` is a parameter `clock : Nat`.
-/

/-- A parsed JSON value, as produced by `json.loads`. -/
inductive JsonValue where
  | null
  | bool (b : Bool)
  | num (n : Int)
  | str (s : String)
  | arr (xs : List JsonValue)
  | obj (fields : List (String × JsonValue))

/-- A parsed JSON object body: the type of `self.all_data`. -/
abbrev Payload := List (String × JsonValue)

/-- Python `key in d` / `d[key]` on a dict, first-match association lookup. -/
def lookupKey : Payload → String → Option JsonValue
  | [], _ => none
  | (k1, v) :: rest, k => if k1 = k then some v else lookupKey rest k

/-- The Python exceptions the embedded code can raise. -/
inductive PyError where
  | valueError (msg : String)
  | keyError (key : String)
  | typeError
  | attributeError
  | unknownTimeZoneError (zone : String)

mutual

/-- Python `repr` of a parsed JSON value (string escaping elided). -/
def pyRepr : JsonValue → String
  | .null => "None"
  | .bool b => if b then "True" else "False"
  | .num n => toString n
  | .str s => "\x27" ++ s ++ "\x27"
  | .arr xs => "[" ++ pyReprList xs ++ "]"
  | .obj fs => "\x7b" ++ pyReprFields fs ++ "\x7d"

/-- `repr` of the comma-separated elements of a Python list. -/
def pyReprList : List JsonValue → String
  | [] => ""
  | [x] => pyRepr x
  | x :: xs => pyRepr x ++ ", " ++ pyReprList xs

/-- `repr` of the comma-separated entries of a Python dict. -/
def pyReprFields : List (String × JsonValue) → String
  | [] => ""
  | [(k, v)] => "\x27" ++ k ++ "\x27: " ++ pyRepr v
  | (k, v) :: fs => "\x27" ++ k ++ "\x27: " ++ pyRepr v ++ ", " ++ pyReprFields fs

end

/-- Python `str` of a parsed JSON value, as used by f-string interpolation:
the string itself for strings, `repr` otherwise. -/
def pyStr : JsonValue → String
  | .str s => s
  | v => pyRepr v

/-- Python subscript `v[k]` on an arbitrary value: association lookup on a
dict (raising `KeyError` when the key is missing), `TypeError` on any
non-dict value. -/
def getItem (v : JsonValue) (k : String) : Except PyError JsonValue :=
  match v with
  | .obj fs =>
      match lookupKey fs k with
      | some w => Except.ok w
      | none => Except.error (PyError.keyError k)
  | _ => Except.error PyError.typeError

/-- The constructed object: `self.ip_address` and `self.all_data`. -/
structure GetDetailIPv4Info where
  ip_address : String
  all_data : Payload

/-- The error-classification part of `GetDetailIPv4Info.__init__`, applied
to the mapping parsed from the response body: if `"status"` is a key of
the mapping, look up `self.all_data["error"]` and raise
`ValueError(f"{self.all_data["status"]} {error["title"]}: {error["message"]}")`,
evaluating the f-string fields left to right; otherwise construction
succeeds with the payload stored unmodified. -/
def construct (ip_address : String) (parsed : Payload) :
    Except PyError GetDetailIPv4Info :=
  if (lookupKey parsed "status").isSome then
    match lookupKey parsed "error" with
    | none => Except.error (PyError.keyError "error")
    | some err =>
        match getItem err "title" with
        | Except.error e => Except.error e
        | Except.ok title =>
            match getItem err "message" with
            | Except.error e => Except.error e
            | Except.ok message =>
                Except.error (PyError.valueError
                  (pyStr ((lookupKey parsed "status").getD JsonValue.null)
                    ++ " " ++ pyStr title ++ ": " ++ pyStr message))
  else
    Except.ok ⟨ip_address, parsed⟩

/-- Python `str.split` restricted to the single-character separator `","`,
on the character list of the string: `"".split(",") == [""]`, and each
comma starts a new segment. -/
def splitChars : List Char → List (List Char)
  | [] => [[]]
  | c :: cs =>
      if c = ',' then [] :: splitChars cs
      else
        match splitChars cs with
        | [] => [[c]]
        | r :: rs => (c :: r) :: rs

/-- `s.split(",")` for a Python string `s`. -/
def pySplit (s : String) : List String :=
  (splitChars s.data).map (fun cs => String.mk cs)

/-- `pytz.timezone(v)`: succeeds with the zone name exactly when `v` is a
string recognized by the timezone database `knownTz`, raises
`pytz.exceptions.UnknownTimeZoneError` on an unrecognized string, and a
`TypeError`-like failure on non-string input (modelled as
`attributeError`, from calling string methods on it). -/
def pytz_timezone (knownTz : String → Bool) : JsonValue → Except PyError String
  | .str s =>
      if knownTz s then Except.ok s
      else Except.error (PyError.unknownTimeZoneError s)
  | _ => Except.error PyError.attributeError

/-- The accessor surface of a constructed result: the eleven properties
plus the debug representation `__repr__`. -/
inductive Accessor where
  | all
  | hostname
  | ip
  | city
  | region
  | country
  | location
  | organization
  | postal
  | time
  | timezone
  | bogon
  | reprA
deriving DecidableEq

/-- The value an accessor invocation returns. -/
inductive AccessorValue where
  /-- Python `None`, the absent marker. -/
  | pyNone
  /-- A raw payload value, returned unchanged. -/
  | json (v : JsonValue)
  /-- The tuple of strings returned by `location`. -/
  | strTuple (parts : List String)
  /-- The `pytz` timezone object for a zone name. -/
  | tz (zone : String)
  /-- The `datetime.now(tz)` result: the clock reading and the zone. -/
  | timeAt (clock : Nat) (zone : String)
  /-- The whole payload dict returned by `all`. -/
  | payload (d : Payload)
  /-- The string returned by `__repr__`. -/
  | reprStr (s : String)

/-- `self.all_data[key] if key in self.all_data else None`, the shared
shape of the simple accessor properties. -/
def simpleGet (d : Payload) (key : String) : AccessorValue :=
  match lookupKey d key with
  | some v => AccessorValue.json v
  | none => AccessorValue.pyNone

/-- The `location` property:
`tuple(self.all_data["loc"].split(",")) if "loc" in self.all_data else None`. -/
def locationGet (d : Payload) : Except PyError AccessorValue :=
  match lookupKey d "loc" with
  | none => Except.ok AccessorValue.pyNone
  | some (.str s) => Except.ok (AccessorValue.strTuple (pySplit s))
  | some _ => Except.error PyError.attributeError

/-- The `timezone` property:
`pytz.timezone(self.all_data["timezone"]) if "timezone" in self.all_data else None`. -/
def timezoneGet (knownTz : String → Bool) (d : Payload) :
    Except PyError AccessorValue :=
  match lookupKey d "timezone" with
  | none => Except.ok AccessorValue.pyNone
  | some v => (pytz_timezone knownTz v).map AccessorValue.tz

/-- The `time` property:
`datetime.now(pytz.timezone(self.all_data["timezone"])) if "timezone" in self.all_data else None`. -/
def timeGet (knownTz : String → Bool) (clock : Nat) (d : Payload) :
    Except PyError AccessorValue :=
  match lookupKey d "timezone" with
  | none => Except.ok AccessorValue.pyNone
  | some v => (pytz_timezone knownTz v).map (AccessorValue.timeAt clock)

/-- Invoking one accessor on a constructed result: the returned value (or
raised exception) together with the object state afterwards. -/
def invoke (knownTz : String → Bool) (clock : Nat) (a : Accessor)
    (o : GetDetailIPv4Info) :
    Except PyError AccessorValue × GetDetailIPv4Info :=
  match a with
  | .all => (Except.ok (AccessorValue.payload o.all_data), o)
  | .hostname => (Except.ok (simpleGet o.all_data "hostname"), o)
  | .ip => (Except.ok (simpleGet o.all_data "ip"), o)
  | .city => (Except.ok (simpleGet o.all_data "city"), o)
  | .region => (Except.ok (simpleGet o.all_data "region"), o)
  | .country => (Except.ok (simpleGet o.all_data "country"), o)
  | .location => (locationGet o.all_data, o)
  | .organization => (Except.ok (simpleGet o.all_data "org"), o)
  | .postal => (Except.ok (simpleGet o.all_data "postal"), o)
  | .time => (timeGet knownTz clock o.all_data, o)
  | .timezone => (timezoneGet knownTz o.all_data, o)
  | .bogon => (Except.ok (simpleGet o.all_data "bogon"), o)
  | .reprA => (Except.ok (AccessorValue.reprStr (pyRepr (JsonValue.obj o.all_data))), o)

/-- The payload key each optional-field accessor reads (`none` for `all`
and the debug representation, which read the whole payload). -/
def sourceKey : Accessor → Option String
  | .all => none
  | .hostname => some "hostname"
  | .ip => some "ip"
  | .city => some "city"
  | .region => some "region"
  | .country => some "country"
  | .location => some "loc"
  | .organization => some "org"
  | .postal => some "postal"
  | .time => some "timezone"
  | .timezone => some "timezone"
  | .bogon => some "bogon"
  | .reprA => none

/-- Running a sequence of accessor invocations, threading the object
state. -/
def runAccessors (knownTz : String → Bool) (clock : Nat) :
    List Accessor → GetDetailIPv4Info → GetDetailIPv4Info
  | [], o => o
  | a :: rest, o => runAccessors knownTz clock rest (invoke knownTz clock a o).2

/-- Whether a construction or invocation outcome is a raised `ValueError`. -/
def isValueError {α : Type} : Except PyError α → Bool
  | Except.error (PyError.valueError _) => true
  | _ => false

/-- Whether an exception is the `pytz` unknown-timezone error. -/
def isUnknownTzErr : PyError → Bool
  | PyError.unknownTimeZoneError _ => true
  | _ => false

/-- Whether an outcome is a raised `pytz` unknown-timezone error. -/
def isUnknownTimeZoneError {α : Type} : Except PyError α → Bool
  | Except.error e => isUnknownTzErr e
  | Except.ok _ => false

/-- Joining back character segments with the `','` separator, the inverse
of `splitChars`. -/
def joinSegs : List (List Char) → List Char
  | [] => []
  | [r] => r
  | r :: rs => r ++ ',' :: joinSegs rs

/-! ## Helper lemmas -/

theorem splitChars_ne_nil (cs : List Char) : splitChars cs ≠ [] := by
  cases cs with
  | nil => simp [splitChars]
  | cons c cs =>
      simp only [splitChars]
      split
      · simp
      · split <;> simp

theorem joinSegs_splitChars (cs : List Char) :
    joinSegs (splitChars cs) = cs := by
  induction cs with
  | nil => rfl
  | cons c cs ih =>
      by_cases h : c = ','
      · subst h
        simp only [splitChars, if_pos rfl]
        cases hs : splitChars cs with
        | nil => exact absurd hs (splitChars_ne_nil cs)
        | cons r rs =>
            rw [hs] at ih
            simp [joinSegs, ih]
      · simp only [splitChars, if_neg h]
        cases hs : splitChars cs with
        | nil => exact absurd hs (splitChars_ne_nil cs)
        | cons r rs =>
            rw [hs] at ih
            cases rs with
            | nil => simpa [joinSegs] using congrArg (c :: ·) ih
            | cons r2 rs2 => simpa [joinSegs] using congrArg (c :: ·) ih

theorem splitChars_length (cs : List Char) :
    (splitChars cs).length = cs.count ',' + 1 := by
  induction cs with
  | nil => rfl
  | cons c cs ih =>
      by_cases h : c = ','
      · subst h
        simp [splitChars, List.count_cons, ih]
      · simp only [splitChars, if_neg h]
        cases hs : splitChars cs with
        | nil => exact absurd hs (splitChars_ne_nil cs)
        | cons r rs =>
            rw [hs] at ih
            simp only [List.length_cons] at ih ⊢
            rw [List.count_cons]
            simp [h, Ne.symm h, ih]

theorem invoke_state_eq (knownTz : String → Bool) (clock : Nat)
    (a : Accessor) (o : GetDetailIPv4Info) :
    (invoke knownTz clock a o).2 = o := by
  cases a <;> rfl

theorem getItem_no_unknown_tz (v : JsonValue) (k : String) :
    isUnknownTimeZoneError (getItem v k) = false := by
  cases v <;> try rfl
  case obj fs =>
    cases h : lookupKey fs k <;>
      simp [getItem, h, isUnknownTimeZoneError, isUnknownTzErr]

theorem locationGet_no_unknown_tz (d : Payload) :
    isUnknownTimeZoneError (locationGet d) = false := by
  cases h : lookupKey d "loc" with
  | none => simp [locationGet, h, isUnknownTimeZoneError]
  | some v =>
      cases v <;> simp [locationGet, h, isUnknownTimeZoneError, isUnknownTzErr]

theorem construct_no_unknown_tz (ip : String) (d : Payload) :
    isUnknownTimeZoneError (construct ip d) = false := by
  unfold construct
  split
  · split
    · rfl
    · rename_i err herr
      split
      · rename_i e ht
        have hg := getItem_no_unknown_tz err "title"
        rw [ht] at hg
        simp only [isUnknownTimeZoneError] at hg ⊢
        exact hg
      · rename_i title ht
        split
        · rename_i e hm
          have hg := getItem_no_unknown_tz err "message"
          rw [hm] at hg
          simp only [isUnknownTimeZoneError] at hg ⊢
          exact hg
        · rfl
  · rfl

theorem construct_ok_eq (ip : String) (d : Payload) (o : GetDetailIPv4Info)
    (hc : construct ip d = Except.ok o) : o = ⟨ip, d⟩ := by
  unfold construct at hc
  split at hc
  · split at hc
    · exact Except.noConfusion hc
    · split at hc
      · exact Except.noConfusion hc
      · split at hc
        · exact Except.noConfusion hc
        · exact Except.noConfusion hc
  · injection hc with h
    exact h.symm

/-! ## Claims -/

/-- C1 (counterexample): the claim quantifies over every parsed mapping
containing a `"status"` key, but a mapping with `"status"` and no
`"error"` key makes construction fail with `KeyError`, not with the
formatted `ValueError`. -/
theorem construct_status_no_error_cex :
    construct "1.2.3.4" [("status", JsonValue.num 404)] =
      Except.error (PyError.keyError "error") ∧
    isValueError (construct "1.2.3.4" [("status", JsonValue.num 404)]) = false :=
  ⟨rfl, rfl⟩

/-- C1 (amended): for every parsed mapping containing a `"status"` key and
an `"error"` key whose value is an object containing `"title"` and
`"message"` keys, construction fails with a `ValueError` whose message is
exactly the status value, a space, the title, `": "`, and the message. -/
theorem construct_error_message (ip : String) (d errFields : Payload)
    (sv tv mv : JsonValue)
    (hs : lookupKey d "status" = some sv)
    (he : lookupKey d "error" = some (JsonValue.obj errFields))
    (ht : lookupKey errFields "title" = some tv)
    (hm : lookupKey errFields "message" = some mv) :
    construct ip d =
      Except.error (PyError.valueError
        (pyStr sv ++ " " ++ pyStr tv ++ ": " ++ pyStr mv)) := by
  simp [construct, hs, he, getItem, ht, hm]

/-- C1 witness: a concrete error payload produces the formatted message. -/
theorem construct_error_message_witness :
    lookupKey [("status", JsonValue.num 404),
        ("error", JsonValue.obj [("title", JsonValue.str "Not Found"),
          ("message", JsonValue.str "nope")])] "status" =
      some (JsonValue.num 404) ∧
    construct "1.2.3.4"
        [("status", JsonValue.num 404),
         ("error", JsonValue.obj [("title", JsonValue.str "Not Found"),
           ("message", JsonValue.str "nope")])] =
      Except.error (PyError.valueError "404 Not Found: nope") :=
  ⟨rfl,
    construct_error_message "1.2.3.4"
      [("status", JsonValue.num 404),
       ("error", JsonValue.obj [("title", JsonValue.str "Not Found"),
         ("message", JsonValue.str "nope")])]
      [("title", JsonValue.str "Not Found"),
       ("message", JsonValue.str "nope")]
      (JsonValue.num 404) (JsonValue.str "Not Found") (JsonValue.str "nope")
      rfl rfl rfl rfl⟩

/-- C2: every optional-field accessor, applied to a payload from which its
source key is absent, returns the absent marker `None` and raises no
exception. -/
theorem missing_key_returns_absent (knownTz : String → Bool) (clock : Nat)
    (a : Accessor) (key : String) (o : GetDetailIPv4Info)
    (hk : sourceKey a = some key)
    (habs : lookupKey o.all_data key = none) :
    invoke knownTz clock a o = (Except.ok AccessorValue.pyNone, o) := by
  cases a <;>
    simp_all [sourceKey, invoke, simpleGet, locationGet, timeGet, timezoneGet]

/-- C2 witness: the `hostname` accessor on an empty payload. -/
theorem missing_key_returns_absent_witness :
    sourceKey Accessor.hostname = some "hostname" ∧
    lookupKey ([] : Payload) "hostname" = none ∧
    invoke (fun _ => true) 0 Accessor.hostname ⟨"8.8.8.8", []⟩ =
      (Except.ok AccessorValue.pyNone, ⟨"8.8.8.8", []⟩) :=
  ⟨rfl, rfl,
    missing_key_returns_absent (fun _ => true) 0 Accessor.hostname "hostname"
      ⟨"8.8.8.8", []⟩ rfl rfl⟩

/-- C3 (counterexample): the `timezone` accessor (not only `time`) raises
the unknown-timezone error on an unrecognized `timezone` value. -/
theorem unknown_tz_timezone_cex :
    invoke (fun _ => false) 0 Accessor.timezone
        ⟨"1.2.3.4", [("timezone", JsonValue.str "Bad/Zone")]⟩ =
      (Except.error (PyError.unknownTimeZoneError "Bad/Zone"),
        ⟨"1.2.3.4", [("timezone", JsonValue.str "Bad/Zone")]⟩) ∧
    Accessor.timezone ≠ Accessor.time :=
  ⟨rfl, by decide⟩

/-- C3 (amended): the unknown-timezone error is raised lazily — never by
construction — and only by the `time` and `timezone` accessors: every
other accessor never raises it. -/
theorem unknown_tz_only_time_and_timezone (knownTz : String → Bool)
    (clock : Nat) (a : Accessor) (o : GetDetailIPv4Info)
    (ip : String) (d : Payload)
    (h1 : a ≠ Accessor.time) (h2 : a ≠ Accessor.timezone) :
    isUnknownTimeZoneError (invoke knownTz clock a o).1 = false ∧
    isUnknownTimeZoneError (construct ip d) = false := by
  refine ⟨?_, construct_no_unknown_tz ip d⟩
  cases a <;>
    first
      | rfl
      | exact locationGet_no_unknown_tz o.all_data
      | exact absurd rfl h1
      | exact absurd rfl h2

/-- C3 witness: the `city` accessor on a payload with an unrecognized
timezone value. -/
theorem unknown_tz_only_time_and_timezone_witness :
    Accessor.city ≠ Accessor.time ∧ Accessor.city ≠ Accessor.timezone ∧
    (isUnknownTimeZoneError
        (invoke (fun _ => false) 0 Accessor.city
          ⟨"1.2.3.4", [("timezone", JsonValue.str "Bad/Zone")]⟩).1 = false ∧
      isUnknownTimeZoneError
        (construct "1.2.3.4" [("city", JsonValue.str "X")]) = false) :=
  ⟨by decide, by decide,
    unknown_tz_only_time_and_timezone (fun _ => false) 0 Accessor.city
      ⟨"1.2.3.4", [("timezone", JsonValue.str "Bad/Zone")]⟩
      "1.2.3.4" [("city", JsonValue.str "X")] (by decide) (by decide)⟩

/-- C4: on a successfully constructed result the `all` accessor returns
exactly the mapping parsed from the response, with no key added, removed
or changed, and leaves the object unchanged. -/
theorem all_returns_parsed_payload (knownTz : String → Bool) (clock : Nat)
    (ip : String) (d : Payload) (o : GetDetailIPv4Info)
    (hc : construct ip d = Except.ok o) :
    invoke knownTz clock Accessor.all o =
      (Except.ok (AccessorValue.payload d), o) := by
  have h := construct_ok_eq ip d o hc
  subst h
  rfl

/-- C4 witness: a concrete success payload round-trips through `all`. -/
theorem all_returns_parsed_payload_witness :
    construct "8.8.8.8" [("ip", JsonValue.str "8.8.8.8")] =
      Except.ok ⟨"8.8.8.8", [("ip", JsonValue.str "8.8.8.8")]⟩ ∧
    invoke (fun _ => true) 0 Accessor.all
        ⟨"8.8.8.8", [("ip", JsonValue.str "8.8.8.8")]⟩ =
      (Except.ok (AccessorValue.payload [("ip", JsonValue.str "8.8.8.8")]),
        ⟨"8.8.8.8", [("ip", JsonValue.str "8.8.8.8")]⟩) :=
  ⟨rfl, all_returns_parsed_payload (fun _ => true) 0 "8.8.8.8" _ _ rfl⟩

/-- C5: when the `loc` value is a string containing exactly one comma, the
`location` accessor returns an ordered pair of two strings whose
comma-join is the original `loc` string. -/
theorem location_pair_roundtrip (knownTz : String → Bool) (clock : Nat)
    (o : GetDetailIPv4Info) (s : String)
    (hloc : lookupKey o.all_data "loc" = some (JsonValue.str s))
    (hshape : s.data.count ',' = 1) :
    ∃ lat lon : String,
      invoke knownTz clock Accessor.location o =
        (Except.ok (AccessorValue.strTuple [lat, lon]), o) ∧
      lat ++ "," ++ lon = s := by
  have hlen : (splitChars s.data).length = 2 := by
    rw [splitChars_length, hshape]
  obtain ⟨a, b, hab⟩ := List.length_eq_two.mp hlen
  refine ⟨String.mk a, String.mk b, ?_, ?_⟩
  · simp [invoke, locationGet, hloc, pySplit, hab]
  · have hjoin : a ++ ',' :: b = s.data := by
      have hj := joinSegs_splitChars s.data
      rw [hab] at hj
      simpa [joinSegs] using hj
    have h1 : String.mk a ++ "," ++ String.mk b =
        String.mk ((a ++ [',']) ++ b) := rfl
    rw [h1, List.append_assoc, List.singleton_append, hjoin]

/-- C5 witness: a concrete well-formed `loc` value round-trips. -/
theorem location_pair_roundtrip_witness :
    lookupKey [("loc", JsonValue.str "1.5,2.5")] "loc" =
      some (JsonValue.str "1.5,2.5") ∧
    ("1.5,2.5" : String).data.count ',' = 1 ∧
    (∃ lat lon : String,
      invoke (fun _ => true) 0 Accessor.location
          ⟨"8.8.8.8", [("loc", JsonValue.str "1.5,2.5")]⟩ =
        (Except.ok (AccessorValue.strTuple [lat, lon]),
          ⟨"8.8.8.8", [("loc", JsonValue.str "1.5,2.5")]⟩) ∧
      lat ++ "," ++ lon = "1.5,2.5") :=
  ⟨rfl, by decide,
    location_pair_roundtrip (fun _ => true) 0
      ⟨"8.8.8.8", [("loc", JsonValue.str "1.5,2.5")]⟩ "1.5,2.5" rfl (by decide)⟩

/-- C6: the `bogon` accessor is three-valued — explicit `true` returns
`true`, explicit `false` returns `false`, an absent key returns `None`,
and the explicit-`false` result differs from the absent result. -/
theorem bogon_three_valued (knownTz : String → Bool) (clock : Nat)
    (o1 o2 o3 : GetDetailIPv4Info)
    (h1 : lookupKey o1.all_data "bogon" = some (JsonValue.bool true))
    (h2 : lookupKey o2.all_data "bogon" = some (JsonValue.bool false))
    (h3 : lookupKey o3.all_data "bogon" = none) :
    invoke knownTz clock Accessor.bogon o1 =
      (Except.ok (AccessorValue.json (JsonValue.bool true)), o1) ∧
    invoke knownTz clock Accessor.bogon o2 =
      (Except.ok (AccessorValue.json (JsonValue.bool false)), o2) ∧
    invoke knownTz clock Accessor.bogon o3 =
      (Except.ok AccessorValue.pyNone, o3) ∧
    (invoke knownTz clock Accessor.bogon o2).1 ≠
      (invoke knownTz clock Accessor.bogon o3).1 := by
  refine ⟨?_, ?_, ?_, ?_⟩ <;> simp [invoke, simpleGet, h1, h2, h3]

/-- C6 witness: the three `bogon` states on concrete payloads. -/
theorem bogon_three_valued_witness :
    lookupKey [("bogon", JsonValue.bool true)] "bogon" =
      some (JsonValue.bool true) ∧
    lookupKey [("bogon", JsonValue.bool false)] "bogon" =
      some (JsonValue.bool false) ∧
    lookupKey ([("ip", JsonValue.str "8.8.8.8")] : Payload) "bogon" = none ∧
    (invoke (fun _ => true) 0 Accessor.bogon
        ⟨"a", [("bogon", JsonValue.bool true)]⟩ =
      (Except.ok (AccessorValue.json (JsonValue.bool true)),
        ⟨"a", [("bogon", JsonValue.bool true)]⟩) ∧
    invoke (fun _ => true) 0 Accessor.bogon
        ⟨"b", [("bogon", JsonValue.bool false)]⟩ =
      (Except.ok (AccessorValue.json (JsonValue.bool false)),
        ⟨"b", [("bogon", JsonValue.bool false)]⟩) ∧
    invoke (fun _ => true) 0 Accessor.bogon
        ⟨"c", [("ip", JsonValue.str "8.8.8.8")]⟩ =
      (Except.ok AccessorValue.pyNone, ⟨"c", [("ip", JsonValue.str "8.8.8.8")]⟩) ∧
    (invoke (fun _ => true) 0 Accessor.bogon
        ⟨"b", [("bogon", JsonValue.bool false)]⟩).1 ≠
      (invoke (fun _ => true) 0 Accessor.bogon
        ⟨"c", [("ip", JsonValue.str "8.8.8.8")]⟩).1) :=
  ⟨rfl, rfl, rfl,
    bogon_three_valued (fun _ => true) 0
      ⟨"a", [("bogon", JsonValue.bool true)]⟩
      ⟨"b", [("bogon", JsonValue.bool false)]⟩
      ⟨"c", [("ip", JsonValue.str "8.8.8.8")]⟩ rfl rfl rfl⟩

/-- C7: no sequence of accessor invocations (including the debug
representation) changes the constructed object: after running any list of
accessors the object — in particular its payload mapping — equals the one
immediately after construction. -/
theorem payload_never_mutated (knownTz : String → Bool) (clock : Nat)
    (as : List Accessor) (o : GetDetailIPv4Info) :
    runAccessors knownTz clock as o = o := by
  induction as with
  | nil => rfl
  | cons a rest ih => rw [runAccessors, invoke_state_eq, ih]

/-- C8: a parsed mapping with a `"status"` key but no `"error"` key makes
construction fail with `KeyError` on `"error"`, not with the formatted
`ValueError`. -/
theorem status_without_error_raises_keyerror (ip : String) (d : Payload)
    (hs : (lookupKey d "status").isSome = true)
    (he : lookupKey d "error" = none) :
    construct ip d = Except.error (PyError.keyError "error") ∧
    isValueError (construct ip d) = false := by
  have h : construct ip d = Except.error (PyError.keyError "error") := by
    simp [construct, hs, he]
  exact ⟨h, by rw [h]; rfl⟩

/-- C8 witness: a concrete status-only payload. -/
theorem status_without_error_raises_keyerror_witness :
    (lookupKey [("status", JsonValue.num 429)] "status").isSome = true ∧
    lookupKey ([("status", JsonValue.num 429)] : Payload) "error" = none ∧
    (construct "1.2.3.4" [("status", JsonValue.num 429)] =
      Except.error (PyError.keyError "error") ∧
    isValueError (construct "1.2.3.4" [("status", JsonValue.num 429)]) = false) :=
  ⟨rfl, rfl,
    status_without_error_raises_keyerror "1.2.3.4"
      [("status", JsonValue.num 429)] rfl rfl⟩

/-- C9: whenever the `loc` key holds a string, the `location` accessor
returns (without raising) the tuple of its comma-separated segments, whose
length is the number of commas plus one. -/
theorem location_segment_count (knownTz : String → Bool) (clock : Nat)
    (o : GetDetailIPv4Info) (s : String)
    (hloc : lookupKey o.all_data "loc" = some (JsonValue.str s)) :
    invoke knownTz clock Accessor.location o =
      (Except.ok (AccessorValue.strTuple (pySplit s)), o) ∧
    (pySplit s).length = s.data.count ',' + 1 := by
  constructor
  · simp [invoke, locationGet, hloc]
  · simpa [pySplit] using splitChars_length s.data

/-- C9 witness: a `loc` value with two commas yields a 3-tuple. -/
theorem location_segment_count_witness :
    lookupKey [("loc", JsonValue.str "1,2,3")] "loc" =
      some (JsonValue.str "1,2,3") ∧
    (invoke (fun _ => true) 0 Accessor.location
        ⟨"8.8.8.8", [("loc", JsonValue.str "1,2,3")]⟩ =
      (Except.ok (AccessorValue.strTuple (pySplit "1,2,3")),
        ⟨"8.8.8.8", [("loc", JsonValue.str "1,2,3")]⟩) ∧
    (pySplit "1,2,3").length = ("1,2,3" : String).data.count ',' + 1) :=
  ⟨rfl,
    location_segment_count (fun _ => true) 0
      ⟨"8.8.8.8", [("loc", JsonValue.str "1,2,3")]⟩ "1,2,3" rfl⟩

/-- C10: every accessor other than `time` is deterministic in the payload:
its result does not depend on the clock, and invoking it twice in a row
returns the same result. -/
theorem accessor_deterministic (knownTz : String → Bool) (c1 c2 : Nat)
    (a : Accessor) (o : GetDetailIPv4Info) (h : a ≠ Accessor.time) :
    (invoke knownTz c1 a o).1 = (invoke knownTz c2 a o).1 ∧
    (invoke knownTz c1 a (invoke knownTz c1 a o).2).1 =
      (invoke knownTz c1 a o).1 := by
  constructor
  · cases a <;> first | rfl | exact absurd rfl h
  · rw [invoke_state_eq]

/-- C10 witness: the `city` accessor at two different clock readings. -/
theorem accessor_deterministic_witness :
    Accessor.city ≠ Accessor.time ∧
    ((invoke (fun _ => true) 0 Accessor.city ⟨"8.8.8.8", []⟩).1 =
      (invoke (fun _ => true) 1 Accessor.city ⟨"8.8.8.8", []⟩).1 ∧
    (invoke (fun _ => true) 0 Accessor.city
        (invoke (fun _ => true) 0 Accessor.city ⟨"8.8.8.8", []⟩).2).1 =
      (invoke (fun _ => true) 0 Accessor.city ⟨"8.8.8.8", []⟩).1) :=
  ⟨by decide,
    accessor_deterministic (fun _ => true) 0 1 Accessor.city ⟨"8.8.8.8", []⟩
      (by decide)⟩
